import Mathlib

/-!
Verification of the health-aware routing core of `sol-rpc-router`.

The development shallowly embeds the Rust sources:
* `src/health.rs` — probe classification (`perform_health_check`), the
  per-backend hysteresis update performed by `health_check_loop`, and the
  per-cycle consensus-tip (`max_slot`) computation;
* `src/main.rs` — the proxy request pipeline: body/method extraction
  middleware (`extract_rpc_method`), the API-key gate, URI rewrite and
  forwarding of the `proxy` handler.

External collaborators (the JSON parser, the HTTP transport, the clock) are
modelled at their interface boundary: parse results, probe deliveries and
timestamps are inputs to the embedded functions, exactly as the Rust code
consumes them.
-/

namespace SolRpcRouter

/-! ## A model of `serde_json::Value`

Numbers representable as `u64` (the only numeric reading the router performs,
via `Value::as_u64`) are distinguished from all other numbers. -/

inductive Json where
  | null : Json
  | jbool : Bool → Json
  | jnumU64 : Nat → Json
  | jnumOther : Json
  | jstr : String → Json
  | jarr : List Json → Json
  | jobj : List (String × Json) → Json

/-- `Value::get(key)`: field lookup on an object, `None` on anything else. -/
def Json.get : Json → String → Option Json
  | .jobj fields, key => fields.lookup key
  | _, _ => none

/-- `Value::as_u64`. -/
def Json.asU64 : Json → Option Nat
  | .jnumU64 n => some n
  | _ => none

/-- `Value::as_str`. -/
def Json.asStr : Json → Option String
  | .jstr s => some s
  | _ => none

/-! ## Data model from `src/health.rs` -/

/-- `HealthCheckConfig` (declared in the config module, consumed by
`health.rs`); numeric fields are unsigned integers in the source. -/
structure HealthCheckConfig where
  method : String
  timeout_secs : Nat
  interval_secs : Nat
  max_slot_lag : Nat
  consecutive_failures_threshold : Nat
  consecutive_successes_threshold : Nat
  deriving DecidableEq, Repr

/-- `BackendHealthStatus` from `src/health.rs`.  The counters are `u32` in the
source; they are embedded as `Nat` with explicit wrap-around (`% 2^32`) where
they are incremented.  `last_check_time` is a `SystemTime`, modelled as an
abstract tick supplied by the caller. -/
structure BackendHealthStatus where
  healthy : Bool
  last_check_time : Option Nat
  consecutive_failures : Nat
  consecutive_successes : Nat
  last_error : Option String
  deriving DecidableEq, Repr

/-- `BackendHealthStatus::default()`: optimistic, healthy, zero counters. -/
def BackendHealthStatus.default : BackendHealthStatus :=
  { healthy := true
    last_check_time := none
    consecutive_failures := 0
    consecutive_successes := 0
    last_error := none }

/-- Modulus of the `u32` consecutive counters. -/
def U32_MOD : Nat := 2 ^ 32

/-! ## Probe classification: `perform_health_check`

The HTTP transport is external; a probe's raw outcome (timeout, transport
error, or a response with a status code and a body whose JSON-parse result is
given) is the input, mirroring exactly the `match` structure of
`perform_health_check`. -/

/-- Outcome of reading and JSON-parsing a response body: the read itself can
fail (`BodyExt::collect` error), and a read body parses to `some` JSON value
or fails to parse (`none`). -/
inductive BodyOutcome where
  | readError : String → BodyOutcome
  | bytes : Option Json → BodyOutcome

/-- Raw delivery outcome of one probe request, before classification. -/
inductive ProbeDelivery where
  | timeout : ProbeDelivery
  | transportError : String → ProbeDelivery
  | response : Nat → BodyOutcome → ProbeDelivery

/-- `StatusCode::is_success()`: 2xx. -/
def isSuccessStatus (s : Nat) : Bool :=
  decide (200 ≤ s) && decide (s < 300)

/-- The height/slot-style probe methods recognised by `perform_health_check`. -/
def isHeightMethod (m : String) : Bool :=
  m == "getSlot" || m == "getBlockHeight"

/-- `perform_health_check` from `src/health.rs`, classification stage:
`Ok (some h)` for a height method with a 2xx response whose body holds a
numeric `result` field, `Ok none` for other methods on a 2xx response, and
`Err` otherwise.  For non-height methods the body is never read or parsed. -/
def perform_health_check (method : String) (d : ProbeDelivery) :
    Except String (Option Nat) :=
  match d with
  | .timeout => .error "Health check timed out"
  | .transportError e => .error ("Health check request failed: " ++ e)
  | .response status body =>
    if isSuccessStatus status = false then
      .error ("Health check returned status: " ++ toString status)
    else if isHeightMethod method then
      match body with
      | .readError e => .error ("Failed to read response body: " ++ e)
      | .bytes none => .error "Failed to parse response JSON"
      | .bytes (some json) =>
        match (json.get "result").bind Json.asU64 with
        | some slot => .ok (some slot)
        | none =>
          .error ("Health check response missing numeric 'result' field for method "
            ++ method)
    else
      .ok none

/-- Whether a body outcome yields a numeric `result` (read succeeded, JSON
parsed, and `result` is a `u64`). -/
def bodyYieldsU64Result : BodyOutcome → Bool
  | .bytes (some j) => ((j.get "result").bind Json.asU64).isSome
  | _ => false

/-- Whether a body outcome is a successfully parsed JSON body. -/
def bodyParseable : BodyOutcome → Bool
  | .bytes (some _) => true
  | _ => false

/-! ## Per-cycle consensus tip (`max_slot`) and lag classification -/

/-- `Iterator::max` on a list of `Nat`: `none` iff empty. -/
def listMax : List Nat → Option Nat
  | [] => none
  | h :: t =>
    some (match listMax t with
      | none => h
      | some m => Nat.max h m)

/-- The heights reported this cycle: the `Ok(Some(slot))` results. -/
def heightsOf (results : List (Except String (Option Nat))) : List Nat :=
  results.filterMap fun r =>
    match r with
    | .ok (some slot) => some slot
    | _ => none

/-- `max_slot` of a cycle, from `health_check_loop`. -/
def maxSlotOf (results : List (Except String (Option Nat))) : Option Nat :=
  listMax (heightsOf results)

/-- The lag test of `health_check_loop`: lagging iff a height and a `max_slot`
are both present, `max > slot`, and `max - slot > max_slot_lag` (the `u64`
comparison guarded against underflow, exactly as in the source). -/
def laggingB (cfg : HealthCheckConfig) (slotOpt maxSlot : Option Nat) : Bool :=
  match slotOpt, maxSlot with
  | some slot, some mx => decide (mx > slot) && decide (mx - slot > cfg.max_slot_lag)
  | _, _ => false

/-- Whether a probe result is classified as lagging this cycle: only
`Ok` results reach the lag test. -/
def classifiedLagging (cfg : HealthCheckConfig) (maxSlot : Option Nat)
    (r : Except String (Option Nat)) : Bool :=
  match r with
  | .ok slotOpt => laggingB cfg slotOpt maxSlot
  | .error _ => false

/-! ## The per-backend status update of `health_check_loop` -/

/-- The status update `health_check_loop` applies to one backend in one cycle,
given its probe result, the cycle's `max_slot` and the current time `now`.
Mirrors the `match check_result` block of the source: lagging successes are
treated exactly like failures. -/
def updateStatus (cfg : HealthCheckConfig) (st : BackendHealthStatus)
    (res : Except String (Option Nat)) (maxSlot : Option Nat) (now : Nat) :
    BackendHealthStatus :=
  let st' :=
    match res with
    | .ok slotOpt =>
      if laggingB cfg slotOpt maxSlot then
        -- lagging branch: slot_opt/max_slot are necessarily `some` here
        let slot := slotOpt.getD 0
        let mx := maxSlot.getD 0
        let cf := (st.consecutive_failures + 1) % U32_MOD
        { st with
          consecutive_failures := cf
          consecutive_successes := 0
          last_error := some ("Backend lagging: slot " ++ toString slot ++ " is "
            ++ toString (mx - slot) ++ " behind max " ++ toString mx)
          healthy :=
            if cf ≥ cfg.consecutive_failures_threshold then false else st.healthy }
      else
        let cs := (st.consecutive_successes + 1) % U32_MOD
        { st with
          consecutive_successes := cs
          consecutive_failures := 0
          last_error := none
          healthy :=
            if cs ≥ cfg.consecutive_successes_threshold then true else st.healthy }
    | .error e =>
      let cf := (st.consecutive_failures + 1) % U32_MOD
      { st with
        consecutive_failures := cf
        consecutive_successes := 0
        last_error := some e
        healthy :=
          if cf ≥ cfg.consecutive_failures_threshold then false else st.healthy }
  { st' with last_check_time := some now }

/-! ## The proxy pipeline from `src/main.rs` -/

/-- `MAX_BODY_SIZE` from `src/main.rs`: 10 MB. -/
def MAX_BODY_SIZE : Nat := 10 * 1024 * 1024

/-- `axum::body::to_bytes(body, MAX_BODY_SIZE)`: succeeds with the full bytes
when the body fits under the cap, fails otherwise. -/
def readBody (body : List Nat) : Option (List Nat) :=
  if body.length ≤ MAX_BODY_SIZE then some body else none

/-- The request handed downstream by the `extract_rpc_method` middleware:
its body bytes and the `RpcMethod` extension, when one was extracted. -/
structure DownstreamRequest where
  body : List Nat
  rpcMethod : Option String
  deriving DecidableEq, Repr

/-- `extract_rpc_method` from `src/main.rs`.  `parse` is the external JSON
parser (`serde_json::from_slice`) at its interface boundary.  On read failure
an empty body is passed downstream; otherwise the original bytes are
forwarded, with the `method` field attached as an extension when body parses
to JSON holding a string `method`.  The middleware never rejects: it always
produces a downstream request. -/
def extract_rpc_method (body : List Nat) (parse : List Nat → Option Json) :
    DownstreamRequest :=
  match readBody body with
  | none => { body := [], rpcMethod := none }
  | some bodyBytes =>
    match (parse bodyBytes).bind fun j => (j.get "method").bind Json.asStr with
    | some m => { body := bodyBytes, rpcMethod := some m }
    | none => { body := bodyBytes, rpcMethod := none }

/-- Position of the first occurrence of `needle` in `haystack`, if any
(`str::find` on a literal pattern). -/
def findSubstrPos (needle : List Char) : List Char → Option Nat
  | [] => if needle = [] then some 0 else none
  | c :: rest =>
    if needle.isPrefixOf (c :: rest) then some 0
    else (findSubstrPos needle rest).map (· + 1)

/-- The query-stripping step of `proxy`: truncate the path-and-query at the
first occurrence of the literal `"?api-key="`, else leave it unchanged. -/
def stripApiKey (pq : String) : String :=
  match findSubstrPos "?api-key=".toList pq.toList with
  | some pos => String.mk (pq.toList.take pos)
  | none => pq

/-- The URI-rebuilding step of `proxy`: root paths attach nothing (trailing
slashes of the backend are trimmed, `trim_end_matches('/')`), a doubled slash
at the seam is collapsed, and otherwise the cleaned path is appended verbatim.
Written over character lists so that it evaluates by kernel reduction. -/
def joinUri (backend : String) (cleanedPath : String) : String :=
  let b := backend.toList
  let p := cleanedPath.toList
  if p = ['/'] then
    String.mk ((b.reverse.dropWhile (fun c => c = '/')).reverse)
  else if b.getLast? = some '/' && p.head? = some '/' then
    String.mk (b ++ p.drop 1)
  else
    String.mk (b ++ p)

/-- List elements up to (excluding) the first occurrence of `c`. -/
def takeUntilChar (c : Char) : List Char → List Char
  | [] => []
  | x :: rest => if x = c then [] else x :: takeUntilChar c rest

/-- The Host-header value `proxy` installs: `parsed_uri.host()` re-joined with
`parsed_uri.port_u16()` when present — i.e. the authority component of the
rebuilt URI.  `none` when the URI has no scheme/authority (host header left
unchanged in the source). -/
def hostHeaderOf (uri : String) : Option String :=
  match findSubstrPos "://".toList uri.toList with
  | none => none
  | some pos =>
    some (String.mk (takeUntilChar '/' (uri.toList.drop (pos + 3))))

/-- Result of the `proxy` handler, as observable at its boundary: an early
401 reply, a forwarded request (with its rebuilt URI, Host header and the
backend's relayed status), or a 502 reply after a failed forward. -/
inductive ProxyOutcome where
  | unauthorized : ProxyOutcome
  | forwarded : String → Option String → Nat → ProxyOutcome
  | badGateway : String → Option String → ProxyOutcome
  deriving DecidableEq, Repr

/-- HTTP status of a proxy outcome (401 Unauthorized, the backend's own
status on passthrough, 502 Bad Gateway). -/
def ProxyOutcome.statusCode : ProxyOutcome → Nat
  | .unauthorized => 401
  | .forwarded _ _ s => s
  | .badGateway _ _ => 502

/-- Whether the outcome involved sending anything to a backend. -/
def ProxyOutcome.isForwarded : ProxyOutcome → Bool
  | .unauthorized => false
  | .forwarded _ _ _ => true
  | .badGateway _ _ => true

/-- The rebuilt outbound URI, when a forward was attempted. -/
def ProxyOutcome.outboundUri : ProxyOutcome → Option String
  | .unauthorized => none
  | .forwarded u _ _ => some u
  | .badGateway u _ => some u

/-- The `proxy` handler from `src/main.rs`.  `apiKeys` and `backend` are the
`AppState` fields; `apiKey?` is the parsed `api-key` query parameter;
`pathAndQuery?` is `req.uri().path_and_query()`; `fwd` is the HTTP client at
its interface boundary, mapping the rebuilt URI to the backend's status or a
transport error. -/
def proxy (apiKeys : List String) (backend : String) (apiKey? : Option String)
    (pathAndQuery? : Option String) (fwd : String → Except String Nat) :
    ProxyOutcome :=
  match apiKey? with
  | none => .unauthorized
  | some key =>
    if apiKeys.contains key then
      let requestPathAndQuery := pathAndQuery?.getD "/"
      let cleanedRequestPath := stripApiKey requestPathAndQuery
      let uriString := joinUri backend cleanedRequestPath
      let host := hostHeaderOf uriString
      match fwd uriString with
      | .ok status => .forwarded uriString host status
      | .error _ => .badGateway uriString host
    else .unauthorized

/-! ## Backend selection and KeyStore, modelled from the spec

The full router pipeline (`state.rs`, `config.rs`, `keystore.rs`) is not part
of the visible sources — `health.rs` consumes `config::Backend` and
`state::RouterState`, and `tests/keystore_test.rs` exercises a `KeyStore`,
but their definitions are absent — so the Backend Selector and the
KeyStore-outcome mapping are modelled from the spec (§4.3, §4.4). -/

/-- Modelled from the spec: `config::Backend` as seen by the selector — label,
url, positive weight, and the lock-free health flag's current value
(`AtomicBool`, written only by the health loop). -/
structure Backend where
  label : String
  url : String
  weight : Nat
  healthy : Bool
  deriving DecidableEq, Repr

/-- Modelled from the spec: the selector-relevant part of
`state::RouterState` — the backend list and the `method_routes` overrides
(JSON-RPC method name → backend label). -/
structure RouterState where
  backends : List Backend
  method_routes : List (String × String)

/-- Modelled from the spec (§4.3 steps 1–2): the candidate set — the single
overridden backend when `method_routes` maps this method, else the full
list. -/
def candidatesFor (rs : RouterState) (method : String) : List Backend :=
  match rs.method_routes.lookup method with
  | some label => rs.backends.filter (fun b => b.label == label)
  | none => rs.backends

/-- Modelled from the spec (§4.3 step 5): weighted choice by cumulative
weights, indexed by a random draw `r`. -/
def pickWeighted (r : Nat) : List Backend → Option Backend
  | [] => none
  | b :: rest => if r < b.weight then some b else pickWeighted (r - b.weight) rest

/-- Total weight of a candidate list. -/
def totalWeight (l : List Backend) : Nat :=
  (l.map Backend.weight).sum

/-- Modelled from the spec (§4.3): the Backend Selector — restrict by
`method_routes`, filter to currently-healthy flags, fail explicitly when none
remain, else choose by weight from the healthy candidates using the random
draw `r`. -/
def selectBackend (rs : RouterState) (method : String) (r : Nat) :
    Except String Backend :=
  match pickWeighted (r % totalWeight ((candidatesFor rs method).filter Backend.healthy))
      ((candidatesFor rs method).filter Backend.healthy) with
  | some b => .ok b
  | none => .error "No backend available"

/-- Modelled from the spec (§4.4): the possible outcomes of
`KeyStore::validate_key` — `Ok(Some(info))`, `Ok(None)`, and the two `Err`
conditions the pipeline must distinguish. -/
inductive KeyStoreResult where
  | valid : String → Nat → KeyStoreResult
  | unknown : KeyStoreResult
  | rateLimited : KeyStoreResult
  | storeError : String → KeyStoreResult
  deriving DecidableEq, Repr

/-- Modelled from the spec (§4.4/§4.5 stage 2): the HTTP status the pipeline
replies with for each KeyStore outcome (`none` = the request proceeds):
unknown/deactivated key → 401, rate limit exceeded → 429, backing-store
failure → a gateway error, never silently allowed through. -/
def authStatusFor : KeyStoreResult → Option Nat
  | .valid _ _ => none
  | .unknown => some 401
  | .rateLimited => some 429
  | .storeError _ => some 502

/-! ## Helper lemmas -/

theorem listMax_eq_none_iff (l : List Nat) : listMax l = none ↔ l = [] := by
  cases l <;> simp [listMax]

theorem listMax_spec (l : List Nat) (m : Nat) (h : listMax l = some m) :
    m ∈ l ∧ ∀ x ∈ l, x ≤ m := by
  induction l generalizing m with
  | nil => simp [listMax] at h
  | cons a t ih =>
    simp only [listMax] at h
    cases ht : listMax t with
    | none =>
      rw [ht] at h
      rcases (listMax_eq_none_iff t).mp ht with rfl
      simp at h
      simp [h]
    | some mt =>
      rw [ht] at h
      rcases ih mt ht with ⟨hmem, hle⟩
      simp only [Option.some.injEq] at h
      subst h
      constructor
      · rcases Nat.le_total a mt with hle' | hle'
        · exact List.mem_cons_of_mem a (by simpa [Nat.max_eq_right hle'] using hmem)
        · simp [Nat.max_eq_left hle']
      · intro x hx
        rcases List.mem_cons.mp hx with rfl | hx
        · exact Nat.le_max_left _ _
        · exact Nat.le_trans (hle x hx) (Nat.le_max_right _ _)

theorem pickWeighted_mem (r : Nat) (l : List Backend) (b : Backend)
    (h : pickWeighted r l = some b) : b ∈ l := by
  induction l generalizing r with
  | nil => simp [pickWeighted] at h
  | cons a t ih =>
    simp only [pickWeighted] at h
    split at h
    · simp at h
      simp [h]
    · exact List.mem_cons_of_mem a (ih _ h)

/-- Helper: a failed body read yields the empty downstream request. -/
theorem extract_eq_of_read_none (body : List Nat) (parse : List Nat → Option Json)
    (h : readBody body = none) :
    extract_rpc_method body parse = { body := [], rpcMethod := none } := by
  unfold extract_rpc_method
  rw [h]

/-- Helper: the oversized-body read fails. -/
theorem readBody_replicate_oversized_eq_none :
    readBody (List.replicate (MAX_BODY_SIZE + 1) 0) = none := by
  unfold readBody
  rw [List.length_replicate, if_neg (by omega)]

/-! ## Claims -/

/-- C3: every status update written by the health loop — on success, lagging
or failure — increments exactly one of the two consecutive counters (as a
`u32`, i.e. mod `2^32`) and resets the other to 0; consequently at most one
of the two counters is non-zero after the update. -/
theorem update_counters_mutually_exclusive (cfg : HealthCheckConfig)
    (st : BackendHealthStatus) (res : Except String (Option Nat))
    (maxSlot : Option Nat) (now : Nat) :
    (((updateStatus cfg st res maxSlot now).consecutive_failures
          = (st.consecutive_failures + 1) % U32_MOD
        ∧ (updateStatus cfg st res maxSlot now).consecutive_successes = 0)
      ∨ ((updateStatus cfg st res maxSlot now).consecutive_successes
          = (st.consecutive_successes + 1) % U32_MOD
        ∧ (updateStatus cfg st res maxSlot now).consecutive_failures = 0))
    ∧ ((updateStatus cfg st res maxSlot now).consecutive_failures = 0
      ∨ (updateStatus cfg st res maxSlot now).consecutive_successes = 0) := by
  cases res with
  | ok slotOpt =>
    by_cases h : laggingB cfg slotOpt maxSlot = true
    · constructor
      · left
        simp [updateStatus, h]
      · right
        simp [updateStatus, h]
    · constructor
      · right
        simp [updateStatus, h]
      · left
        simp [updateStatus, h]
  | error e =>
    constructor
    · left
      simp [updateStatus]
    · right
      simp [updateStatus]

/-- C2: the `healthy` field written by a health-loop status update flips
`true → false` only when the updated `consecutive_failures` has reached
`consecutive_failures_threshold`, and flips `false → true` only when the
updated `consecutive_successes` has reached
`consecutive_successes_threshold`; below the relevant threshold the flag is
left unchanged. -/
theorem healthy_flips_only_at_threshold (cfg : HealthCheckConfig)
    (st : BackendHealthStatus) (res : Except String (Option Nat))
    (maxSlot : Option Nat) (now : Nat) :
    (st.healthy = true → (updateStatus cfg st res maxSlot now).healthy = false →
      cfg.consecutive_failures_threshold
        ≤ (updateStatus cfg st res maxSlot now).consecutive_failures)
    ∧ (st.healthy = false → (updateStatus cfg st res maxSlot now).healthy = true →
      cfg.consecutive_successes_threshold
        ≤ (updateStatus cfg st res maxSlot now).consecutive_successes) := by
  cases res with
  | ok slotOpt =>
    by_cases h : laggingB cfg slotOpt maxSlot = true
    · by_cases hth : (st.consecutive_failures + 1) % U32_MOD
          ≥ cfg.consecutive_failures_threshold
      · refine ⟨fun _ _ => ?_, fun h1 h2 => ?_⟩
        · simp [updateStatus, h, hth]
        · simp [updateStatus, h, hth] at h2
      · refine ⟨fun h1 h2 => ?_, fun h1 h2 => ?_⟩
        · simp [updateStatus, h, hth, h1] at h2
        · simp [updateStatus, h, hth, h1] at h2
    · by_cases hth : (st.consecutive_successes + 1) % U32_MOD
          ≥ cfg.consecutive_successes_threshold
      · refine ⟨fun h1 h2 => ?_, fun _ _ => ?_⟩
        · simp [updateStatus, h, hth] at h2
        · simp [updateStatus, h, hth]
      · refine ⟨fun h1 h2 => ?_, fun h1 h2 => ?_⟩
        · simp [updateStatus, h, hth, h1] at h2
        · simp [updateStatus, h, hth, h1] at h2
  | error e =>
    by_cases hth : (st.consecutive_failures + 1) % U32_MOD
        ≥ cfg.consecutive_failures_threshold
    · refine ⟨fun _ _ => ?_, fun h1 h2 => ?_⟩
      · simp [updateStatus, hth]
      · simp [updateStatus, hth] at h2
    · refine ⟨fun h1 h2 => ?_, fun h1 h2 => ?_⟩
      · simp [updateStatus, hth, h1] at h2
      · simp [updateStatus, hth, h1] at h2

/-- C4: within one cycle, `max_slot` is exactly the maximum of the heights
reported this cycle (`none` iff none were reported); a backend that reported
height `h` is classified lagging iff `max_slot − h > max_slot_lag`; and when
no backend reported a height, no backend at all is classified lagging. -/
theorem max_slot_lag_classification (cfg : HealthCheckConfig)
    (results : List (Except String (Option Nat))) :
    (maxSlotOf results = none ↔ heightsOf results = [])
    ∧ (∀ m, maxSlotOf results = some m →
        m ∈ heightsOf results ∧ ∀ h ∈ heightsOf results, h ≤ m)
    ∧ (∀ h m, maxSlotOf results = some m →
        (laggingB cfg (some h) (maxSlotOf results) = true ↔
          cfg.max_slot_lag < m - h))
    ∧ (maxSlotOf results = none →
        ∀ r ∈ results, classifiedLagging cfg (maxSlotOf results) r = false) := by
  refine ⟨listMax_eq_none_iff _, fun m hm => listMax_spec _ m hm, ?_, ?_⟩
  · intro h m hm
    rw [hm]
    simp only [laggingB, Bool.and_eq_true, decide_eq_true_eq]
    omega
  · intro hnone r _
    rw [hnone]
    cases r with
    | ok slotOpt => cases slotOpt <;> simp [classifiedLagging, laggingB]
    | error e => simp [classifiedLagging]

/-- C5 (amended): classification of one probe.  `Ok (some h)` exactly for a
height method with a 2xx response whose parsed body has numeric `result` `h`;
`Ok none` for a non-height method exactly on a 2xx response (the body is not
read or parsed); `Err` exactly on timeout, transport failure, non-2xx status,
or — for height methods only — an unreadable/unparseable body or a missing
numeric `result`. -/
theorem probe_outcome_classification (m : String) (d : ProbeDelivery) :
    (∀ h, perform_health_check m d = .ok (some h) ↔
        isHeightMethod m = true ∧ ∃ s j, d = .response s (.bytes (some j))
          ∧ isSuccessStatus s = true ∧ (j.get "result").bind Json.asU64 = some h)
    ∧ (perform_health_check m d = .ok none ↔
        isHeightMethod m = false ∧ ∃ s b, d = .response s b
          ∧ isSuccessStatus s = true)
    ∧ ((∃ e, perform_health_check m d = .error e) ↔
        (d = .timeout ∨ (∃ e, d = .transportError e)
          ∨ (∃ s b, d = .response s b ∧ isSuccessStatus s = false)
          ∨ (isHeightMethod m = true ∧ ∃ s b, d = .response s b
              ∧ isSuccessStatus s = true ∧ bodyYieldsU64Result b = false))) := by
  cases d with
  | timeout => simp [perform_health_check]
  | transportError e => simp [perform_health_check]
  | response s b =>
    by_cases hs : isSuccessStatus s = true
    · by_cases hm : isHeightMethod m = true
      · cases b with
        | readError e =>
          refine ⟨fun h => ?_, ?_, ?_⟩
          · simp [perform_health_check, hs, hm]
          · simp [perform_health_check, hs, hm]
          · simp [perform_health_check, hs, hm, bodyYieldsU64Result]
            exact ⟨s, .readError e, ⟨rfl, rfl⟩, hs, rfl⟩
        | bytes j? =>
          cases j? with
          | none =>
            refine ⟨fun h => ?_, ?_, ?_⟩
            · simp [perform_health_check, hs, hm]
            · simp [perform_health_check, hs, hm]
            · simp [perform_health_check, hs, hm, bodyYieldsU64Result]
              exact ⟨s, .bytes none, ⟨rfl, rfl⟩, hs, rfl⟩
          | some j =>
            cases hr : (j.get "result").bind Json.asU64 with
            | none =>
              refine ⟨fun h => ?_, ?_, ?_⟩
              · simp [perform_health_check, hs, hm, hr]
              · simp [perform_health_check, hs, hm, hr]
              · simp [perform_health_check, hs, hm, hr, bodyYieldsU64Result]
                exact ⟨s, .bytes (some j), ⟨rfl, rfl⟩, hs, by simp [hr]⟩
            | some slot =>
              refine ⟨fun h => ?_, ?_, ?_⟩
              · constructor
                · intro hok
                  simp [perform_health_check, hs, hm, hr] at hok
                  exact ⟨hm, s, j, rfl, hs, by rw [hr, hok]⟩
                · rintro ⟨-, s', j', heq, -, hr'⟩
                  rw [ProbeDelivery.response.injEq] at heq
                  rcases heq with ⟨rfl, heqb⟩
                  obtain rfl : j = j' := by simpa using heqb
                  simp [perform_health_check, hs, hm, hr]
                  rw [hr] at hr'
                  simpa using hr'
              · simp [perform_health_check, hs, hm, hr]
              · simp [perform_health_check, hs, hm, hr, bodyYieldsU64Result]
      · refine ⟨fun h => ?_, ?_, ?_⟩
        · simp [perform_health_check, hs, hm]
        · simp [perform_health_check, hs, hm]
        · simp [perform_health_check, hs, hm]
    · have hphc : perform_health_check m (.response s b)
          = .error ("Health check returned status: " ++ toString s) := by
        simp [perform_health_check, hs]
      have hns : isSuccessStatus s = false := by simpa using hs
      refine ⟨fun h => ?_, ?_, ?_⟩
      · rw [hphc]
        constructor
        · intro hok
          exact absurd hok (by simp)
        · rintro ⟨-, s', j', heq, hs', -⟩
          rw [ProbeDelivery.response.injEq] at heq
          rcases heq with ⟨rfl, -⟩
          exact absurd hs' hs
      · rw [hphc]
        constructor
        · intro hok
          exact absurd hok (by simp)
        · rintro ⟨-, s', b', heq, hs'⟩
          rw [ProbeDelivery.response.injEq] at heq
          rcases heq with ⟨rfl, -⟩
          exact absurd hs' hs
      · rw [hphc]
        constructor
        · intro _
          exact Or.inr (Or.inr (Or.inl ⟨s, b, rfl, hns⟩))
        · intro _
          exact ⟨_, rfl⟩

/-- C5 counterexample: for a non-height method a 2xx response whose body is
not parseable JSON is still classified `Ok none` — the code never reads the
body for such methods, so "2xx and parseable" is not the condition it
implements. -/
theorem probe_ok_none_despite_unparseable_body :
    perform_health_check "getHealth" (.response 200 (.bytes none)) = .ok none
    ∧ bodyParseable (.bytes none) = false
    ∧ isHeightMethod "getHealth" = false
    ∧ isSuccessStatus 200 = true :=
  ⟨rfl, rfl, rfl, rfl⟩

/-- C6: when an authenticated request's outbound forward fails (connection
refused, timeout, protocol error), the proxy replies 502 Bad Gateway, which
is not a 2xx status. -/
theorem forward_failure_maps_to_bad_gateway (apiKeys : List String)
    (backend key : String) (pq? : Option String)
    (fwd : String → Except String Nat) (e : String)
    (hkey : apiKeys.contains key = true)
    (hfwd : fwd (joinUri backend (stripApiKey (pq?.getD "/"))) = .error e) :
    (proxy apiKeys backend (some key) pq? fwd).statusCode = 502
    ∧ isSuccessStatus (proxy apiKeys backend (some key) pq? fwd).statusCode
        = false := by
  have h : proxy apiKeys backend (some key) pq? fwd
      = .badGateway (joinUri backend (stripApiKey (pq?.getD "/")))
          (hostHeaderOf (joinUri backend (stripApiKey (pq?.getD "/")))) := by
    simp only [proxy]
    rw [hkey, if_pos rfl, hfwd]
  rw [h]
  exact ⟨rfl, rfl⟩

/-- C7: a request with no `api-key` query parameter, or with a key not in the
active list, is answered 401 without being forwarded to any backend; and —
for the KeyStore-backed gate modelled from the spec — a rate-limit exceedance
maps to 429 and a backing-store failure to a gateway error, never silently
through. -/
theorem auth_gate_maps_outcomes (apiKeys : List String) (backend : String)
    (pq? : Option String) (fwd : String → Except String Nat) :
    (proxy apiKeys backend none pq? fwd = .unauthorized)
    ∧ (∀ key, apiKeys.contains key = false →
        proxy apiKeys backend (some key) pq? fwd = .unauthorized)
    ∧ ProxyOutcome.unauthorized.statusCode = 401
    ∧ ProxyOutcome.unauthorized.isForwarded = false
    ∧ authStatusFor .rateLimited = some 429
    ∧ (∀ e, authStatusFor (.storeError e) = some 502)
    ∧ authStatusFor .unknown = some 401 := by
  refine ⟨rfl, fun key hk => ?_, rfl, rfl, rfl, fun e => rfl, rfl⟩
  simp only [proxy]
  rw [hk, if_neg (by simp)]

/-- C8 counterexample: a body over the 10 MB cap fails the read and is
replaced by an empty body downstream, so the forwarded bytes are not those
received. -/
theorem forwarded_body_differs_on_read_failure :
    (extract_rpc_method (List.replicate (MAX_BODY_SIZE + 1) 0) (fun _ => none)).body
      ≠ List.replicate (MAX_BODY_SIZE + 1) 0 := by
  rw [extract_eq_of_read_none _ _ readBody_replicate_oversized_eq_none]
  simp [List.replicate_succ]

/-- C8 (amended): whenever the body read succeeds (the body is within the
10 MB cap), the bytes forwarded downstream are exactly the bytes received,
whatever the JSON-parse and method-extraction outcomes. -/
theorem body_preserved_when_read_succeeds (body : List Nat)
    (parse : List Nat → Option Json) (h : body.length ≤ MAX_BODY_SIZE) :
    (extract_rpc_method body parse).body = body := by
  simp only [extract_rpc_method, readBody, if_pos h]
  cases hp : (parse body).bind fun j => (j.get "method").bind Json.asStr <;>
    simp [hp]

/-- C10: when reading the request body fails (it exceeds `MAX_BODY_SIZE`),
the request is not rejected: it is passed downstream with an empty body and
no extracted RPC method. -/
theorem oversized_body_passed_downstream_empty (body : List Nat)
    (parse : List Nat → Option Json) (h : MAX_BODY_SIZE < body.length) :
    extract_rpc_method body parse = { body := [], rpcMethod := none } := by
  apply extract_eq_of_read_none
  unfold readBody
  rw [if_neg (Nat.not_le.mpr h)]

/-- C1: the selector (modelled from the spec; `state.rs` is not among the
visible sources) returns only backends whose health flag is `true`, drawn
from the candidate set (`method_routes` override or full list), and fails
with an explicit "no backend available" outcome when every candidate's flag
is `false`. -/
theorem selector_returns_only_healthy (rs : RouterState) (method : String)
    (r : Nat) :
    (∀ b, selectBackend rs method r = .ok b →
        b.healthy = true ∧ b ∈ candidatesFor rs method)
    ∧ ((∀ b ∈ candidatesFor rs method, b.healthy = false) →
        selectBackend rs method r = .error "No backend available") := by
  constructor
  · intro b hb
    unfold selectBackend at hb
    cases hp : pickWeighted
        (r % totalWeight ((candidatesFor rs method).filter Backend.healthy))
        ((candidatesFor rs method).filter Backend.healthy) with
    | none =>
      rw [hp] at hb
      exact absurd hb (by simp)
    | some b' =>
      rw [hp] at hb
      obtain rfl : b' = b := by simpa using hb
      have hmem := pickWeighted_mem _ _ _ hp
      rcases List.mem_filter.mp hmem with ⟨hc, hh⟩
      exact ⟨hh, hc⟩
  · intro hall
    have hfil : (candidatesFor rs method).filter Backend.healthy = [] := by
      rw [List.filter_eq_nil_iff]
      intro a ha
      simp [hall a ha]
    unfold selectBackend
    rw [hfil]
    rfl

/-- C9: the query-stripping of `proxy` misses an `api-key` that is not the
first query parameter — `find("?api-key=")` does not match `"&api-key="` —
so the caller's key is forwarded to the backend inside the outbound URI,
while a leading `?api-key=` is stripped as intended. -/
theorem api_key_forwarded_when_not_first_param :
    (proxy ["k"] "http://backend" (some "k") (some "/?foo=1&api-key=secret")
        (fun _ => .ok 200)).outboundUri
      = some "http://backend/?foo=1&api-key=secret"
    ∧ stripApiKey "/?foo=1&api-key=secret" = "/?foo=1&api-key=secret"
    ∧ stripApiKey "/?api-key=secret" = "/" := by
  refine ⟨?_, ?_, ?_⟩ <;> decide

/-! ## Witnesses: the hypothesised theorems at concrete inputs -/

/-- C1 witness: with one unhealthy and one healthy backend, selection
returns the healthy one; with only an unhealthy backend, it fails. -/
theorem selector_returns_only_healthy_witness :
    ((⟨"b", "v", 2, true⟩ : Backend).healthy = true
      ∧ (⟨"b", "v", 2, true⟩ : Backend)
          ∈ candidatesFor ⟨[⟨"a", "u", 1, false⟩, ⟨"b", "v", 2, true⟩], []⟩ "m")
    ∧ selectBackend ⟨[⟨"a", "u", 1, false⟩], []⟩ "m" 0
        = .error "No backend available" :=
  ⟨(selector_returns_only_healthy
      ⟨[⟨"a", "u", 1, false⟩, ⟨"b", "v", 2, true⟩], []⟩ "m" 0).1
      ⟨"b", "v", 2, true⟩ rfl,
   (selector_returns_only_healthy ⟨[⟨"a", "u", 1, false⟩], []⟩ "m" 0).2 (by decide)⟩

/-- C2 witness: a third consecutive failure flips healthy→unhealthy at
threshold 3, and a third consecutive success flips back. -/
theorem healthy_flips_only_at_threshold_witness :
    3 ≤ (updateStatus ⟨"getSlot", 5, 10, 20, 3, 3⟩
        ⟨true, none, 2, 0, none⟩ (.error "connection refused") none 7).consecutive_failures
    ∧ 3 ≤ (updateStatus ⟨"getSlot", 5, 10, 20, 3, 3⟩
        ⟨false, none, 0, 2, none⟩ (.ok (some 100)) (some 100) 7).consecutive_successes :=
  ⟨(healthy_flips_only_at_threshold ⟨"getSlot", 5, 10, 20, 3, 3⟩
      ⟨true, none, 2, 0, none⟩ (.error "connection refused") none 7).1 rfl (by decide),
   (healthy_flips_only_at_threshold ⟨"getSlot", 5, 10, 20, 3, 3⟩
      ⟨false, none, 0, 2, none⟩ (.ok (some 100)) (some 100) 7).2 rfl (by decide)⟩

/-- C4 witness: with probe heights 100, 100, 70 and `max_slot_lag = 20`,
the backend at 70 is lagging and a backend at 100 is not. -/
theorem max_slot_lag_classification_witness :
    laggingB ⟨"getSlot", 5, 10, 20, 3, 3⟩ (some 70)
        (maxSlotOf [.ok (some 100), .ok (some 100), .ok (some 70)]) = true
    ∧ ¬ laggingB ⟨"getSlot", 5, 10, 20, 3, 3⟩ (some 100)
        (maxSlotOf [.ok (some 100), .ok (some 100), .ok (some 70)]) = true :=
  ⟨((max_slot_lag_classification ⟨"getSlot", 5, 10, 20, 3, 3⟩
      [.ok (some 100), .ok (some 100), .ok (some 70)]).2.2.1 70 100 rfl).mpr (by decide),
   fun hl => absurd (((max_slot_lag_classification ⟨"getSlot", 5, 10, 20, 3, 3⟩
      [.ok (some 100), .ok (some 100), .ok (some 70)]).2.2.1 100 100 rfl).mp hl)
      (by decide)⟩

/-- C5 witness: a height probe with a numeric result yields `Ok (some 42)`;
a non-height probe on a 2xx response yields `Ok none` even though its body
was never read. -/
theorem probe_outcome_classification_witness :
    perform_health_check "getSlot"
        (.response 200 (.bytes (some (.jobj [("result", .jnumU64 42)])))) = .ok (some 42)
    ∧ perform_health_check "getVersion" (.response 204 (.readError "x")) = .ok none :=
  ⟨((probe_outcome_classification "getSlot"
      (.response 200 (.bytes (some (.jobj [("result", .jnumU64 42)]))))).1 42).mpr
      ⟨rfl, 200, .jobj [("result", .jnumU64 42)], rfl, rfl, rfl⟩,
   (probe_outcome_classification "getVersion" (.response 204 (.readError "x"))).2.1.mpr
      ⟨rfl, 204, .readError "x", rfl, rfl⟩⟩

/-- C6 witness: a refused connection on a forwarded request yields 502. -/
theorem forward_failure_maps_to_bad_gateway_witness :
    (proxy ["k"] "http://b" (some "k") none
        (fun _ => .error "connection refused")).statusCode = 502
    ∧ isSuccessStatus (proxy ["k"] "http://b" (some "k") none
        (fun _ => .error "connection refused")).statusCode = false :=
  forward_failure_maps_to_bad_gateway ["k"] "http://b" "k" none
    (fun _ => .error "connection refused") "connection refused" (by decide) rfl

/-- C7 witness: a key outside the active list is answered 401. -/
theorem auth_gate_maps_outcomes_witness :
    proxy ["k"] "http://b" (some "bad") none (fun _ => .ok 200) = .unauthorized :=
  (auth_gate_maps_outcomes ["k"] "http://b" none (fun _ => .ok 200)).2.1 "bad" (by decide)

/-- C8 witness: a small body is forwarded byte-for-byte. -/
theorem body_preserved_when_read_succeeds_witness :
    ([1, 2, 3] : List Nat).length ≤ MAX_BODY_SIZE
    ∧ (extract_rpc_method [1, 2, 3] (fun _ => none)).body = [1, 2, 3] :=
  ⟨by decide, body_preserved_when_read_succeeds [1, 2, 3] (fun _ => none) (by decide)⟩

/-- C10 witness: a body one byte over the cap is replaced by an empty body
with no extracted method. -/
theorem oversized_body_passed_downstream_empty_witness :
    MAX_BODY_SIZE < (List.replicate (MAX_BODY_SIZE + 1) (0 : Nat)).length
    ∧ extract_rpc_method (List.replicate (MAX_BODY_SIZE + 1) 0) (fun _ => none)
        = { body := [], rpcMethod := none } :=
  ⟨by rw [List.length_replicate]; omega,
   oversized_body_passed_downstream_empty (List.replicate (MAX_BODY_SIZE + 1) 0)
     (fun _ => none) (by rw [List.length_replicate]; omega)⟩

end SolRpcRouter
